import Mathlib

/-
Shallow embedding of the Small-bot trading program.

Sources embedded here:
  main.py   : StateManager (lines 61-106), trading_loop (142-197),
              handle_telegram_commands (199-273), risk constants (50-52).
  trader.py : Trader.analyze_and_trade (40-93), the selection loop (62-78),
              Trader._execute_trade (296-363), Trader.force_trade (365-384).

Numbers are modelled as rationals.  The one boundary comparison the claims
care about, 0.2 * 10000, is exact in IEEE double arithmetic as well (the
product rounds to 2000.0), so the rational model agrees with the float
code at the daily-loss boundary.  External collaborators (OANDA account
fetches, order placement, market data, sentiment, the Telegram channel)
are modelled as explicit environment records supplied to each operation;
the Telegram send itself is modelled as non-raising, following the spec
treatment of the Notification Channel as a thin collaborator (the
TelegramBot class is not among the provided sources; its analogue notify
in bot.py swallows its own errors).
-/

/-- A trade record as built and appended by Trader._execute_trade
    (trader.py lines 342-354). -/
structure TradeRecord where
  instrument : String
  units : Int
  price : ℚ
  direction : String
  stop_loss : ℚ
  take_profit : ℚ
  time : Nat
  sentiment : ℚ
deriving DecidableEq

/-- The persisted state dict created by StateManager.__init__
    (main.py lines 64-73).  last_reset is modelled as a day ordinal. -/
structure BotState where
  running : Bool
  daily_profit_loss : ℚ
  weekly_profit_loss : ℚ
  total_capital : ℚ
  last_trade : Option TradeRecord
  trades : List TradeRecord
  recovery_mode : Bool
  last_reset : Nat
deriving DecidableEq

/-- Default daily loss percentage (main.py line 51, env default "20"). -/
def MAX_DAILY_LOSS_PERCENT : ℚ := 20

/-- Hard capital loss percentage (main.py line 52). -/
def MAX_CAPITAL_LOSS_PERCENT : ℚ := 70

/-- daily_loss_limit computed each tick (main.py line 172). -/
def dailyLossLimit (st : BotState) : ℚ :=
  MAX_DAILY_LOSS_PERCENT / 100 * st.total_capital

/-- The daily-loss test of main.py line 173:
    state daily_profit_loss is at most minus the limit. -/
def dailyBreached (st : BotState) : Bool :=
  decide (st.daily_profit_loss ≤ -dailyLossLimit st)

/-- capital_loss_pct of main.py line 181; the initial capital reference is
    the literal 10000.0 in the source. -/
def capitalLossPct (st : BotState) : ℚ :=
  (10000 - st.total_capital) / 10000 * 100

/-- The capital-loss test of main.py line 182. -/
def capitalBreached (st : BotState) : Bool :=
  decide (MAX_CAPITAL_LOSS_PERCENT ≤ capitalLossPct st)

/-- RiskOutcome of the spec RiskPolicy, read off the two tick checks of
    main.py lines 171-187 in their source order (daily first). -/
inductive RiskOutcome where
  | OK
  | DAILY_LIMIT_BREACHED
  | CAPITAL_LIMIT_BREACHED
deriving DecidableEq

/-- Pure risk evaluation: the two breach tests of the tick, checked in the
    order the code checks them. -/
def riskOutcome (st : BotState) : RiskOutcome :=
  if dailyBreached st then RiskOutcome.DAILY_LIMIT_BREACHED
  else if capitalBreached st then RiskOutcome.CAPITAL_LIMIT_BREACHED
  else RiskOutcome.OK

/-- Python int() truncation toward zero, on a rational. -/
def ratTrunc (q : ℚ) : Int :=
  if 0 ≤ q then ⌊q⌋ else -⌊-q⌋

/-- Trade direction from sentiment (trader.py line 300):
    1 when sentiment is strictly positive, otherwise -1. -/
def decideDirection (sentiment : ℚ) : Int :=
  if 0 < sentiment then 1 else -1

/-- Environment of one Trader._execute_trade call: the account balance
    fetched inside it (none models a failed fetch, whose AttributeError is
    caught by the method), whether OrderCreate succeeds, and the timestamp
    written into the record. -/
structure ExecEnv where
  balance : Option ℚ
  orderOk : Bool
  time : Nat
deriving DecidableEq

/-- Trader._execute_trade (trader.py lines 296-363).  On success the trade
    record is appended to trades and last_trade is set; every caught error
    path returns an error report with the state untouched. -/
def execute_trade (ex : ExecEnv) (inst : String) (bid ask sentiment : ℚ)
    (st : BotState) : BotState × String :=
  match ex.balance with
  | none => (st, "trade_execution_error")
  | some bal =>
    let direction : Int := decideDirection sentiment
    let risk_amount : ℚ := bal * (2 / 100)
    let current_price : ℚ := if 0 < direction then ask else bid
    let units0 : Int := ratTrunc (risk_amount / current_price * 100)
    let units : Int := if direction < 0 then -units0 else units0
    let stop_loss : ℚ := current_price * (1 - 1 / 100 * (direction : ℚ))
    let take_profit : ℚ := current_price * (1 + 2 / 100 * (direction : ℚ))
    if ex.orderOk then
      let t : TradeRecord :=
        { instrument := inst, units := units, price := current_price,
          direction := if 0 < direction then "BUY" else "SELL",
          stop_loss := stop_loss, take_profit := take_profit,
          time := ex.time, sentiment := sentiment }
      ({ st with trades := st.trades ++ [t], last_trade := some t },
       "trade_executed")
    else (st, "trade_execution_failed")

/-- A scored instrument entering the selection loop of
    Trader.analyze_and_trade (trader.py lines 62-78): the instrument, its
    confidence score from _analyze_instrument, and its market data. -/
structure Candidate where
  instrument : String
  score : ℚ
  bid : ℚ
  ask : ℚ
  spread : ℚ
deriving DecidableEq

/-- The selection loop of trader.py lines 63-78: best_opportunity and
    best_score accumulate over the candidates in input order; a candidate
    replaces the best only when its score strictly exceeds both the best
    score so far and the 0.6 confidence threshold. -/
def selectLoop : List Candidate → Option Candidate → ℚ → Option Candidate × ℚ
  | [], best, bestScore => (best, bestScore)
  | c :: rest, best, bestScore =>
    if bestScore < c.score ∧ (3 : ℚ) / 5 < c.score then
      selectLoop rest (some c) c.score
    else
      selectLoop rest best bestScore

/-- selectBest of the spec: the selection loop started from no candidate
    and best_score 0, as in the source. -/
def selectBest (cs : List Candidate) : Option Candidate :=
  (selectLoop cs none 0).1

/-- Candidates above the 0.6 confidence threshold. -/
def qualified (cs : List Candidate) : List Candidate :=
  cs.filter fun c => (3 : ℚ) / 5 < c.score

/-- Keep-the-earliest-maximum step: an incoming candidate replaces the
    current best only on a strictly higher score, so on equal scores the
    earlier candidate is kept. -/
def pickBetter (best : Option Candidate) (c : Candidate) : Option Candidate :=
  match best with
  | none => some c
  | some b => if b.score < c.score then some c else some b

/-- The best score tracked by the selection loop for a given best
    candidate: 0 before any candidate is selected, as in trader.py line 64. -/
def scoreOfOpt : Option Candidate → ℚ
  | none => 0
  | some c => c.score

/-- Modelled from the spec wording of the claim: highest score above the
    threshold with ties broken by LOWEST SPREAD, remaining ties by input
    order.  Written only to be compared against selectBest. -/
def pickBetterSpread (best : Option Candidate) (c : Candidate) :
    Option Candidate :=
  match best with
  | none => some c
  | some b =>
    if b.score < c.score ∨ (b.score = c.score ∧ c.spread < b.spread) then
      some c
    else some b

/-- Modelled from the spec wording of the claim: the selection rule with a
    spread tie-break. -/
def selectSpecSpreadTie (cs : List Candidate) : Option Candidate :=
  (qualified cs).foldl pickBetterSpread none

/-- Externally observable events of a worker: a durable save of a state, an
    outbound message (tagged, carrying the in-memory state it reports on),
    and process termination via sys.exit. -/
inductive Ev where
  | save (st : BotState)
  | send (tag : String) (st : BotState)
  | exitProcess
deriving DecidableEq

/-- Auxiliary scan for the save-then-notify discipline: saved collects the
    states already persisted (seeded with the state persisted before the
    trace); every send must reference one of them. -/
def sbnAux (saved : List BotState) : List Ev → Bool
  | [] => true
  | Ev.save s :: rest => sbnAux (s :: saved) rest
  | Ev.send _ s :: rest => if s ∈ saved then sbnAux saved rest else false
  | Ev.exitProcess :: rest => sbnAux saved rest

/-- A trace obeys save-then-notify relative to the initially persisted
    state init when every message sent references a state that was already
    durably saved at the moment of sending. -/
def saveBeforeNotify (init : BotState) (tr : List Ev) : Bool :=
  sbnAux [init] tr

/-- Environment of one trading_loop tick: the current date, the account
    balance fetched by analyze_and_trade (none models a failed fetch), the
    open-trade count, whether market data was fetched, the scored
    candidates, the per-instrument sentiment map, and the execute-trade
    environment. -/
structure TickEnv where
  today : Nat
  balance : Option ℚ
  openTrades : Nat
  marketOk : Bool
  candidates : List Candidate
  sentiments : List (String × ℚ)
  exec : ExecEnv
deriving DecidableEq

/-- sentiment_data.get(instrument, 0) of trader.py lines 73 and 85. -/
def sentimentOf (ss : List (String × ℚ)) (inst : String) : ℚ :=
  (((ss.find? fun p => p.1 == inst).map fun p => p.2).getD 0)

/-- Trader.analyze_and_trade (trader.py lines 40-93): refresh total_capital
    from the fetched balance, bail out at trade capacity or on missing
    market data, select the best candidate, and execute it.  Every path
    returns a report string. -/
def analyze_and_trade (env : TickEnv) (st : BotState) : BotState × String :=
  match env.balance with
  | none => (st, "no_account_info")
  | some bal =>
    let st1 := { st with total_capital := bal }
    if 3 ≤ env.openTrades then (st1, "max_trades_reached")
    else if env.marketOk = false then (st1, "no_market_data")
    else
      match selectBest env.candidates with
      | none => (st1, "no_opportunity")
      | some c =>
        execute_trade env.exec c.instrument c.bid c.ask
          (sentimentOf env.sentiments c.instrument) st1

/-- StateManager.reset_daily_stats (main.py lines 101-106), state effect. -/
def resetDailyStats (today : Nat) (st : BotState) : BotState :=
  { st with daily_profit_loss := 0, recovery_mode := false,
            last_reset := today }

/-- The day-rollover check of the tick (main.py lines 156-160); the reset
    saves inside reset_daily_stats. -/
def resetCheck (today : Nat) (st : BotState) : BotState × List Ev :=
  if st.last_reset < today then
    (resetDailyStats today st, [Ev.save (resetDailyStats today st)])
  else (st, [])

/-- State after the daily-loss branch fires (main.py lines 175-176). -/
def dailyBreachState (st : BotState) : BotState :=
  { st with running := false, recovery_mode := true }

/-- The daily-loss branch of the tick (main.py lines 171-178): mutate, then
    send the message referencing the new state, then save. -/
def dailyCheck (st : BotState) : BotState × List Ev :=
  if dailyBreached st then
    (dailyBreachState st,
     [Ev.send "daily_limit_reached" (dailyBreachState st),
      Ev.save (dailyBreachState st)])
  else (st, [])

/-- State after the capital-loss branch fires (main.py line 184). -/
def capitalBreachState (st : BotState) : BotState :=
  { st with running := false }

/-- The capital-loss branch of the tick (main.py lines 180-187): mutate,
    send, save, then sys.exit(1).  The Bool records that the process
    terminated. -/
def capitalCheck (st : BotState) : BotState × List Ev × Bool :=
  if capitalBreached st then
    (capitalBreachState st,
     [Ev.send "capital_limit_exceeded" (capitalBreachState st),
      Ev.save (capitalBreachState st), Ev.exitProcess],
     true)
  else (st, [], false)

/-- The running-state body of one tick (main.py lines 156-190): daily
    reset, sentiment plus trade analysis, trade report, daily risk check,
    capital risk check, and the unconditional end-of-tick save (skipped
    only when the process already exited). -/
def tickRun (env : TickEnv) (st : BotState) : BotState × List Ev × Bool :=
  let r := resetCheck env.today st
  let a := analyze_and_trade env r.1
  let d := dailyCheck a.1
  let c := capitalCheck d.1
  (c.1,
   r.2 ++ [Ev.send a.2 a.1] ++ d.2 ++ c.2.1 ++
     (if c.2.2 then [] else [Ev.save c.1]),
   c.2.2)

/-- One iteration of trading_loop (main.py lines 149-197): when the bot is
    stopped the tick only sleeps; otherwise it runs the full body.  The
    Bool is true when the tick terminated the process. -/
def tick (env : TickEnv) (st : BotState) : BotState × List Ev × Bool :=
  if st.running = false then (st, [], false) else tickRun env st

/-- Environment of one Trader.force_trade call (trader.py lines 365-384):
    the randomly chosen instrument, whether it is present in the fetched
    market data, its prices, the random sentiment, and the execute-trade
    environment. -/
structure ForceEnv where
  instrument : String
  marketFound : Bool
  bid : ℚ
  ask : ℚ
  sentiment : ℚ
  exec : ExecEnv
deriving DecidableEq

/-- Trader.force_trade: execute a trade on the chosen instrument and
    prefix the report; no save anywhere on this path. -/
def forceTradeExec (fe : ForceEnv) (st : BotState) : BotState × String :=
  if fe.marketFound then
    let r := execute_trade fe.exec fe.instrument fe.bid fe.ask fe.sentiment st
    (r.1, "forced_" ++ r.2)
  else (st, "forced_no_market_data")

/-- Outcome of handling one command inside the try block of
    handle_telegram_commands: either the handler ran to completion, or an
    error was raised partway (after the mutations of the branch, at the
    collaborator call preceding the final send), carrying the state and
    events accumulated up to the raise. -/
inductive CmdOutcome where
  | ok (st : BotState) (evs : List Ev)
  | raised (err : String) (st : BotState) (evs : List Ev)
deriving DecidableEq

/-- Finish a command branch: if the injected fault fires, the branch raises
    with its mutations already applied; otherwise the final send goes out. -/
def finishCmd (fault : Option String) (st : BotState) (evs : List Ev)
    (finalSend : Ev) : CmdOutcome :=
  match fault with
  | some e => CmdOutcome.raised e st evs
  | none => CmdOutcome.ok st (evs ++ [finalSend])

/-- The command dispatch of handle_telegram_commands (main.py lines
    206-269), one branch per command string, with an injectable fault
    standing for an exception raised during the handling of the branch. -/
def handleCommandR (fault : Option String) (fe : ForceEnv) (st : BotState)
    (cmd : String) : CmdOutcome :=
  if cmd = "/start" then
    if st.running then finishCmd fault st [] (Ev.send "already_running" st)
    else
      let s := { st with running := true }
      finishCmd fault s [Ev.save s] (Ev.send "started" s)
  else if cmd = "/stop" then
    if st.running = false then
      finishCmd fault st [] (Ev.send "already_stopped" st)
    else
      let s := { st with running := false }
      finishCmd fault s [Ev.save s] (Ev.send "stopped" s)
  else if cmd = "/status" then
    finishCmd fault st [] (Ev.send "status_report" st)
  else if cmd = "/maketrade" then
    let r := forceTradeExec fe st
    finishCmd fault r.1 [] (Ev.send r.2 r.1)
  else if cmd = "/diagnostics" then
    finishCmd fault st [] (Ev.send "diagnostics_report" st)
  else if cmd = "/daily" then
    finishCmd fault st [] (Ev.send "daily_report" st)
  else if cmd = "/weekly" then
    finishCmd fault st [] (Ev.send "weekly_report" st)
  else if cmd = "/help" then
    finishCmd fault st [] (Ev.send "help_text" st)
  else
    finishCmd fault st [] (Ev.send "unknown_command" st)

/-- One pass of the processor loop (main.py lines 201-273): the try block
    runs the dispatch; the except block turns a raised error into a single
    error message and the loop continues. -/
def processOne (fault : Option String) (fe : ForceEnv) (st : BotState)
    (cmd : String) : BotState × List Ev :=
  match handleCommandR fault fe st cmd with
  | CmdOutcome.ok st1 evs => (st1, evs)
  | CmdOutcome.raised e st1 evs =>
    (st1, evs ++ [Ev.send ("caught_" ++ e) st1])

/-- One queued command with its injected fault and collaborator data. -/
structure CmdItem where
  cmd : String
  fault : Option String
  fe : ForceEnv
deriving DecidableEq

/-- The processor loop draining a queue of commands in order. -/
def processAll (items : List CmdItem) (st : BotState) : BotState × List Ev :=
  match items with
  | [] => (st, [])
  | it :: rest =>
    let r := processOne it.fault it.fe st it.cmd
    let rs := processAll rest r.1
    (rs.1, r.2 ++ rs.2)

/-- A JSON field value of the state file: the value types that occur in
    the state dict written by StateManager.save. -/
inductive FieldVal where
  | b (x : Bool)
  | q (x : ℚ)
  | ot (x : Option TradeRecord)
  | ts (x : List TradeRecord)
  | n (x : Nat)
deriving DecidableEq

/-- json.dump of the state dict (StateManager.save, main.py lines 93-99):
    every key of the in-memory state is written. -/
def encodeState (st : BotState) : List (String × FieldVal) :=
  [("running", FieldVal.b st.running),
   ("daily_profit_loss", FieldVal.q st.daily_profit_loss),
   ("weekly_profit_loss", FieldVal.q st.weekly_profit_loss),
   ("total_capital", FieldVal.q st.total_capital),
   ("last_trade", FieldVal.ot st.last_trade),
   ("trades", FieldVal.ts st.trades),
   ("recovery_mode", FieldVal.b st.recovery_mode),
   ("last_reset", FieldVal.n st.last_reset)]

/-- One step of dict.update during load: a known key with a value of the
    right shape overwrites the field; anything else leaves the typed state
    unchanged. -/
def applyField (st : BotState) (kv : String × FieldVal) : BotState :=
  match kv with
  | ("running", FieldVal.b x) => { st with running := x }
  | ("daily_profit_loss", FieldVal.q x) => { st with daily_profit_loss := x }
  | ("weekly_profit_loss", FieldVal.q x) => { st with weekly_profit_loss := x }
  | ("total_capital", FieldVal.q x) => { st with total_capital := x }
  | ("last_trade", FieldVal.ot x) => { st with last_trade := x }
  | ("trades", FieldVal.ts x) => { st with trades := x }
  | ("recovery_mode", FieldVal.b x) => { st with recovery_mode := x }
  | ("last_reset", FieldVal.n x) => { st with last_reset := x }
  | _ => st

/-- The default state set up in StateManager.__init__ (main.py 64-73). -/
def initState (now : Nat) : BotState :=
  { running := false, daily_profit_loss := 0, weekly_profit_loss := 0,
    total_capital := 10000, last_trade := none, trades := [],
    recovery_mode := false, last_reset := now }

/-- StateManager.load (main.py lines 76-91): start from the defaults and
    self.state.update(loaded_state) with the file contents. -/
def loadState (now : Nat) (file : List (String × FieldVal)) : BotState :=
  file.foldl applyField (initState now)

/-- An atomic Python-level operation on the shared state dict, at the
    granularity the interpreter serializes (one dict or list operation). -/
inductive AtomicOp where
  | writeTrades (t : TradeRecord)
  | writeLastTrade (t : TradeRecord)
  | observe
deriving DecidableEq

/-- Effect of one atomic action: a write mutates one field; observe records
    the snapshot a concurrent reader (risk check or save) sees. -/
def applyAction (st : BotState) : AtomicOp → BotState × Option BotState
  | AtomicOp.writeTrades t => ({ st with trades := st.trades ++ [t] }, none)
  | AtomicOp.writeLastTrade t => ({ st with last_trade := some t }, none)
  | AtomicOp.observe => (st, some st)

/-- Run a sequence of atomic actions, collecting observed snapshots. -/
def runActions (st : BotState) : List AtomicOp → BotState × List BotState
  | [] => (st, [])
  | a :: rest =>
    let r := applyAction st a
    let rs := runActions r.1 rest
    (rs.1, (match r.2 with | some s => [s] | none => []) ++ rs.2)

/-- The two separate atomic statements of the maketrade mutation
    (trader.py lines 353-354): append to trades, then assign last_trade.
    No lock is acquired anywhere in main.py or trader.py. -/
def maketradeActions (t : TradeRecord) : List AtomicOp :=
  [AtomicOp.writeTrades t, AtomicOp.writeLastTrade t]

/-- The maketrade mutation applied atomically (both fields together). -/
def maketradeApplied (t : TradeRecord) (st : BotState) : BotState :=
  { st with trades := st.trades ++ [t], last_trade := some t }

/-- All interleavings of two action sequences, one per thread. -/
def merges : List AtomicOp → List AtomicOp → List (List AtomicOp)
  | [], ys => [ys]
  | xs, [] => [xs]
  | x :: xs, y :: ys =>
    ((merges xs (y :: ys)).map fun zs => x :: zs) ++
      ((merges (x :: xs) ys).map fun zs => y :: zs)
termination_by a b => a.length + b.length

/-- Fixture: a concrete trade record. -/
def sampleTrade : TradeRecord :=
  { instrument := "EUR_USD", units := 1000, price := 1, direction := "BUY",
    stop_loss := 1, take_profit := 1, time := 0, sentiment := 1 / 2 }

/-- Fixture: the fresh default state. -/
def idleState : BotState := initState 0

/-- Fixture: a stopped state left in recovery mode by a daily breach. -/
def recoveryStoppedState : BotState := { initState 0 with recovery_mode := true }

/-- Fixture: a running state exactly at the daily loss boundary. -/
def breachState : BotState :=
  { running := true, daily_profit_loss := -2000, weekly_profit_loss := 0,
    total_capital := 10000, last_trade := none, trades := [],
    recovery_mode := false, last_reset := 0 }

/-- Fixture: a tick environment whose account fetch returns the unchanged
    balance and which bails out at trade capacity. -/
def breachEnv : TickEnv :=
  { today := 0, balance := some 10000, openTrades := 3, marketOk := true,
    candidates := [], sentiments := [],
    exec := { balance := none, orderOk := false, time := 0 } }

/-- Fixture: a running state holding 10000 of capital. -/
def hardStopState : BotState :=
  { running := true, daily_profit_loss := 0, weekly_profit_loss := 0,
    total_capital := 10000, last_trade := none, trades := [],
    recovery_mode := false, last_reset := 0 }

/-- Fixture: a tick environment whose account fetch reports a balance of
    3000, a 70 percent loss against the initial 10000. -/
def hardStopEnv : TickEnv :=
  { today := 0, balance := some 3000, openTrades := 3, marketOk := true,
    candidates := [], sentiments := [],
    exec := { balance := none, orderOk := false, time := 0 } }

/-- Fixture: a running state whose capital already stands at 3000. -/
def drainedState : BotState := { hardStopState with total_capital := 3000 }

/-- Fixture: default collaborator data for command handling. -/
def defaultFE : ForceEnv :=
  { instrument := "EUR_USD", marketFound := false, bid := 1, ask := 1,
    sentiment := 0, exec := { balance := none, orderOk := false, time := 0 } }

/-- Fixture: the idle state with the running flag set by a start command. -/
def startedIdleState : BotState := { idleState with running := true }

/-- Fixture: a running state with the given daily P&L and total capital,
    for evaluating the risk checks in isolation. -/
def mkRiskState (pnl cap : ℚ) : BotState :=
  { running := true, daily_profit_loss := pnl, weekly_profit_loss := 0,
    total_capital := cap, last_trade := none, trades := [],
    recovery_mode := false, last_reset := 0 }

/-- Fixture: two candidates with equal highest scores above the threshold,
    the earlier one having the wider spread. -/
def tieCandidates : List Candidate :=
  [{ instrument := "EUR_USD", score := 7 / 10, bid := 1, ask := 1,
     spread := 3 / 10000 },
   { instrument := "GBP_USD", score := 7 / 10, bid := 1, ask := 1,
     spread := 1 / 10000 }]

/-
Theorems.  Helper lemmas come first, then one theorem per claim (plus the
required counterexamples and witnesses).
-/

theorem capitalBreached_congr (s1 s2 : BotState)
    (h : s1.total_capital = s2.total_capital) :
    capitalBreached s1 = capitalBreached s2 := by
  simp [capitalBreached, capitalLossPct, h]

theorem capitalBreached_capitalCheck (st : BotState) :
    capitalBreached (capitalCheck st).1 = capitalBreached st := by
  by_cases h : capitalBreached st
  · simp only [capitalCheck, h, if_true]
    rw [capitalBreached_congr (capitalBreachState st) st rfl, h]
  · have h2 : capitalBreached st = false := by simpa using h
    simp [capitalCheck, h2]

theorem resetCheck_trades (today : Nat) (st : BotState) :
    (resetCheck today st).1.trades = st.trades := by
  simp only [resetCheck]
  split <;> rfl

theorem dailyCheck_trades (st : BotState) :
    (dailyCheck st).1.trades = st.trades := by
  simp only [dailyCheck]
  split <;> rfl

theorem capitalCheck_trades (st : BotState) :
    (capitalCheck st).1.trades = st.trades := by
  simp only [capitalCheck]
  split <;> rfl

theorem execute_trade_trades (ex : ExecEnv) (inst : String)
    (bid ask s : ℚ) (st : BotState) :
    ∃ new, (execute_trade ex inst bid ask s st).1.trades = st.trades ++ new := by
  simp only [execute_trade]
  split
  · exact ⟨[], by simp⟩
  · split
    · exact ⟨_, rfl⟩
    · exact ⟨[], by simp⟩

theorem analyze_and_trade_trades (env : TickEnv) (st : BotState) :
    ∃ new, (analyze_and_trade env st).1.trades = st.trades ++ new := by
  simp only [analyze_and_trade]
  split
  · exact ⟨[], by simp⟩
  · split
    · exact ⟨[], by simp⟩
    · split
      · exact ⟨[], by simp⟩
      · split
        · exact ⟨[], by simp⟩
        · rename_i bal c hsel
          exact execute_trade_trades env.exec c.instrument c.bid c.ask
            (sentimentOf env.sentiments c.instrument) _

theorem forceTradeExec_trades (fe : ForceEnv) (st : BotState) :
    ∃ new, (forceTradeExec fe st).1.trades = st.trades ++ new := by
  simp only [forceTradeExec]
  split
  · exact execute_trade_trades fe.exec fe.instrument fe.bid fe.ask fe.sentiment st
  · exact ⟨[], by simp⟩

theorem selectLoop_eq_foldl (cs : List Candidate) :
    ∀ b : Option Candidate,
      (selectLoop cs b (scoreOfOpt b)).1 = (qualified cs).foldl pickBetter b := by
  induction cs with
  | nil => intro b; rfl
  | cons c cs ih =>
    intro b
    by_cases hq : (3 : ℚ) / 5 < c.score
    · have hqf : qualified (c :: cs) = c :: qualified cs := by
        simp [qualified, List.filter_cons, hq]
      cases b with
      | none =>
        have h0 : (0 : ℚ) < c.score := lt_trans (by norm_num) hq
        have hstep : selectLoop (c :: cs) none (scoreOfOpt none) =
            selectLoop cs (some c) c.score := by
          simp only [selectLoop, scoreOfOpt]
          rw [if_pos ⟨h0, hq⟩]
        rw [hstep, hqf]
        simpa [pickBetter] using ih (some c)
      | some d =>
        by_cases hlt : d.score < c.score
        · have hstep : selectLoop (c :: cs) (some d) (scoreOfOpt (some d)) =
              selectLoop cs (some c) c.score := by
            simp only [selectLoop, scoreOfOpt]
            rw [if_pos ⟨hlt, hq⟩]
          rw [hstep, hqf]
          simpa [pickBetter, hlt] using ih (some c)
        · have hstep : selectLoop (c :: cs) (some d) (scoreOfOpt (some d)) =
              selectLoop cs (some d) (scoreOfOpt (some d)) := by
            simp only [selectLoop, scoreOfOpt]
            rw [if_neg (fun hcon => hlt hcon.1)]
          rw [hstep, hqf]
          simpa [pickBetter, hlt] using ih (some d)
    · have hqf : qualified (c :: cs) = qualified cs := by
        simp [qualified, List.filter_cons, hq]
      have hstep : selectLoop (c :: cs) b (scoreOfOpt b) =
          selectLoop cs b (scoreOfOpt b) := by
        simp only [selectLoop]
        rw [if_neg (fun hcon => hq hcon.2)]
      rw [hstep, hqf]
      exact ih b

theorem foldl_pickBetter_some (qs : List Candidate) :
    ∀ d : Candidate, ∃ e, qs.foldl pickBetter (some d) = some e := by
  induction qs with
  | nil => intro d; exact ⟨d, rfl⟩
  | cons q qs ih =>
    intro d
    simp only [List.foldl_cons, pickBetter]
    by_cases h : d.score < q.score
    · rw [if_pos h]; exact ih q
    · rw [if_neg h]; exact ih d

/-- C5: the counterexample to the claimed tie-breaking.  On two candidates
    with equal highest score 0.7, the earlier one carrying the wider
    spread, the code selects the earlier candidate EUR_USD, while the
    claimed lowest-spread tie-break selects GBP_USD. -/
theorem C5_spread_tie_counterexample :
    (selectBest tieCandidates).map (fun c => c.instrument) = some "EUR_USD" ∧
    (selectSpecSpreadTie tieCandidates).map (fun c => c.instrument) =
      some "GBP_USD" := by
  constructor
  · norm_num [selectBest, selectLoop, tieCandidates]
  · norm_num [selectSpecSpreadTie, qualified, pickBetterSpread, tieCandidates,
      List.filter_cons]

/-- C5 (amended): selectBest picks the single candidate with the highest
    score among those strictly above the 0.6 threshold, and on equal
    highest scores the earliest candidate in input order wins — the spread
    is never consulted (pickBetter replaces only on a strictly higher
    score); it returns none exactly when no candidate exceeds the
    threshold. -/
theorem C5_selection_amended (cs : List Candidate) :
    selectBest cs = (qualified cs).foldl pickBetter none ∧
    (selectBest cs = none ↔ qualified cs = []) := by
  have h : selectBest cs = (qualified cs).foldl pickBetter none :=
    selectLoop_eq_foldl cs none
  refine ⟨h, ?_, ?_⟩
  · intro hn
    cases hq : qualified cs with
    | nil => rfl
    | cons q qs =>
      exfalso
      rw [h, hq] at hn
      obtain ⟨e, he⟩ := foldl_pickBetter_some qs q
      simp only [List.foldl_cons, pickBetter] at hn
      rw [he] at hn
      exact Option.some_ne_none e hn
  · intro he
    rw [h, he]
    rfl

/-- C1: counterexample to the claimed boundary behaviour.  With
    totalCapital 10000 and maxDailyLossPercent 20, a dailyPnL of exactly
    -2000 does NOT evaluate to OK: the code uses an inclusive comparison
    (dailyPnL <= -(20/100 * 10000)), so the boundary itself breaches. -/
theorem C1_boundary_counterexample :
    riskOutcome (mkRiskState (-2000) 10000) ≠ RiskOutcome.OK := by
  norm_num [riskOutcome, dailyBreached, capitalBreached, dailyLossLimit,
    capitalLossPct, mkRiskState, MAX_DAILY_LOSS_PERCENT,
    MAX_CAPITAL_LOSS_PERCENT]
  decide

/-- C1 (amended): with totalCapital 10000 and maxDailyLossPercent 20 the
    risk outcome is DAILY_LIMIT_BREACHED exactly when dailyPnL <= -2000
    (boundary inclusive) and OK otherwise; in particular both -2000.00 and
    -2000.01 breach. -/
theorem C1_daily_threshold_amended :
    (∀ pnl : ℚ, riskOutcome (mkRiskState pnl 10000) =
       if pnl ≤ -2000 then RiskOutcome.DAILY_LIMIT_BREACHED
       else RiskOutcome.OK) ∧
    riskOutcome (mkRiskState (-2000) 10000) =
      RiskOutcome.DAILY_LIMIT_BREACHED ∧
    riskOutcome (mkRiskState (-(200001 / 100)) 10000) =
      RiskOutcome.DAILY_LIMIT_BREACHED := by
  refine ⟨?_,
    by norm_num [riskOutcome, dailyBreached, capitalBreached, dailyLossLimit,
      capitalLossPct, mkRiskState, MAX_DAILY_LOSS_PERCENT,
      MAX_CAPITAL_LOSS_PERCENT],
    by norm_num [riskOutcome, dailyBreached, capitalBreached, dailyLossLimit,
      capitalLossPct, mkRiskState, MAX_DAILY_LOSS_PERCENT,
      MAX_CAPITAL_LOSS_PERCENT]⟩
  intro pnl
  by_cases h : pnl ≤ -2000 <;>
    norm_num [riskOutcome, dailyBreached, capitalBreached, dailyLossLimit,
      capitalLossPct, mkRiskState, MAX_DAILY_LOSS_PERCENT,
      MAX_CAPITAL_LOSS_PERCENT, h]

/-- C9: trade direction is long (1) exactly when sentiment is strictly
    positive and short (-1) otherwise; in particular zero sentiment yields
    a short trade (trader.py line 300). -/
theorem C9_direction_sign (s : ℚ) :
    (decideDirection s = 1 ↔ 0 < s) ∧
    (decideDirection s = -1 ↔ s ≤ 0) ∧
    decideDirection 0 = -1 := by
  refine ⟨?_, ?_, by norm_num [decideDirection]⟩
  · by_cases h : 0 < s
    · simp [decideDirection, h]
    · simp [decideDirection, h]
  · by_cases h : 0 < s
    · simp [decideDirection, h, not_le.mpr h]
    · simp [decideDirection, h, not_lt.mp h]

/-- C7: persistence round-trip.  Saving any state writes every key of the
    state dict, and load applies dict.update over the defaults, so
    load(save(st)) recovers st exactly. -/
theorem C7_save_load_round_trip (st : BotState) (now : Nat) :
    loadState now (encodeState st) = st := by
  rcases st with ⟨r, dp, wp, tc, lt, tr, rm, lr⟩
  simp [loadState, encodeState, applyField]

theorem capitalBreached_hardStop_tick :
    capitalBreached (tick hardStopEnv hardStopState).1 = true := by
  norm_num [tick, tickRun, resetCheck, analyze_and_trade, dailyCheck,
    capitalCheck, dailyBreached, capitalBreached, dailyLossLimit,
    capitalLossPct, dailyBreachState, capitalBreachState, resetDailyStats,
    hardStopEnv, hardStopState, MAX_DAILY_LOSS_PERCENT,
    MAX_CAPITAL_LOSS_PERCENT]

/-- C2: whenever a full tick runs (the bot is RUNNING) and the capital-loss
    check fires on the state the tick leaves behind (its total_capital is
    exactly the one the check inspected, since the breach branch does not
    touch capital), the tick sends the capital-limit message referencing
    the final state, stops the bot, and terminates the process (the Bool
    component is the sys.exit of main.py line 187) — the terminal HALTED
    state of the spec.  No subsequent tick occurs because the process is
    gone; a restart would moreover load running = false. -/
theorem C2_capital_hard_stop (env : TickEnv) (st : BotState)
    (hrun : st.running = true)
    (hbr : capitalBreached (tick env st).1 = true) :
    (tick env st).2.2 = true ∧
    (tick env st).1.running = false ∧
    Ev.send "capital_limit_exceeded" (tick env st).1 ∈ (tick env st).2.1 ∧
    Ev.exitProcess ∈ (tick env st).2.1 := by
  have htr : tick env st = tickRun env st := by simp [tick, hrun]
  rw [htr] at hbr ⊢
  simp only [tickRun] at hbr ⊢
  set m := (dailyCheck (analyze_and_trade env (resetCheck env.today st).1).1).1
    with hm
  have hb : capitalBreached m = true := by
    rw [← capitalBreached_capitalCheck m]
    exact hbr
  simp [capitalCheck, hb, capitalBreachState, List.mem_append]

/-- C2 witness: with 10000 initial capital and a fetched balance of 3000
    (a 70 percent loss), a running tick halts the process. -/
theorem C2_capital_hard_stop_witness :
    hardStopState.running = true ∧
    capitalBreached (tick hardStopEnv hardStopState).1 = true ∧
    ((tick hardStopEnv hardStopState).2.2 = true ∧
     (tick hardStopEnv hardStopState).1.running = false ∧
     Ev.send "capital_limit_exceeded" (tick hardStopEnv hardStopState).1 ∈
       (tick hardStopEnv hardStopState).2.1 ∧
     Ev.exitProcess ∈ (tick hardStopEnv hardStopState).2.1) :=
  ⟨rfl, capitalBreached_hardStop_tick,
   C2_capital_hard_stop hardStopEnv hardStopState rfl
     capitalBreached_hardStop_tick⟩

/-- C3: counterexample to save-then-notify.  On a tick whose daily-loss
    branch fires, the message referencing the mutated state (running
    false, recovery true) is sent at main.py line 177 BEFORE the save at
    line 178, so the trace of the tick violates the discipline. -/
theorem C3_notify_before_save_counterexample :
    saveBeforeNotify breachState (tick breachEnv breachState).2.1 = false := by
  norm_num [tick, tickRun, resetCheck, analyze_and_trade, dailyCheck,
    capitalCheck, dailyBreached, capitalBreached, dailyLossLimit,
    capitalLossPct, dailyBreachState, capitalBreachState, resetDailyStats,
    saveBeforeNotify, sbnAux, breachEnv, breachState,
    MAX_DAILY_LOSS_PERCENT, MAX_CAPITAL_LOSS_PERCENT]

/-- C3 (amended): the /start and /stop handlers save the mutated state
    before sending the message referencing it, but the risk-breach
    branches of the ControlLoop send the notification referencing the new
    state before saving it (the save follows the send inside the same
    branch), and the /maketrade handler sends its report without any
    save at all. -/
theorem C3_save_then_notify_amended :
    (∀ fe st, saveBeforeNotify st (processOne none fe st "/start").2 = true) ∧
    (∀ fe st, saveBeforeNotify st (processOne none fe st "/stop").2 = true) ∧
    (∀ st, dailyBreached st = true →
       (dailyCheck st).2 =
         [Ev.send "daily_limit_reached" (dailyBreachState st),
          Ev.save (dailyBreachState st)]) ∧
    (∀ st, capitalBreached st = true →
       (capitalCheck st).2.1 =
         [Ev.send "capital_limit_exceeded" (capitalBreachState st),
          Ev.save (capitalBreachState st), Ev.exitProcess]) ∧
    (∀ fe st s, Ev.save s ∉ (processOne none fe st "/maketrade").2) := by
  refine ⟨?_, ?_, ?_, ?_, ?_⟩
  · intro fe st
    by_cases h : st.running <;>
      simp [processOne, handleCommandR, finishCmd, h, saveBeforeNotify, sbnAux]
  · intro fe st
    by_cases h : st.running <;>
      simp [processOne, handleCommandR, finishCmd, h, saveBeforeNotify, sbnAux]
  · intro st h
    simp [dailyCheck, h]
  · intro st h
    simp [capitalCheck, h]
  · intro fe st s
    simp [processOne, handleCommandR, finishCmd]

theorem dailyBreached_breachState_eq : dailyBreached breachState = true := by
  norm_num [dailyBreached, dailyLossLimit, breachState,
    MAX_DAILY_LOSS_PERCENT]

theorem capitalBreached_drainedState_eq :
    capitalBreached drainedState = true := by
  norm_num [capitalBreached, capitalLossPct, drainedState, hardStopState,
    MAX_CAPITAL_LOSS_PERCENT]

/-- C3 witness: concrete instances of the amended statement. -/
theorem C3_save_then_notify_witness :
    saveBeforeNotify idleState
      (processOne none defaultFE idleState "/start").2 = true ∧
    (dailyCheck breachState).2 =
      [Ev.send "daily_limit_reached" (dailyBreachState breachState),
       Ev.save (dailyBreachState breachState)] ∧
    (capitalCheck drainedState).2.1 =
      [Ev.send "capital_limit_exceeded" (capitalBreachState drainedState),
       Ev.save (capitalBreachState drainedState), Ev.exitProcess] :=
  ⟨C3_save_then_notify_amended.1 defaultFE idleState,
   C3_save_then_notify_amended.2.2.1 breachState dailyBreached_breachState_eq,
   C3_save_then_notify_amended.2.2.2.1 drainedState
     capitalBreached_drainedState_eq⟩

/-- C4: counterexample to the claimed mutual exclusion.  The code takes no
    lock, so the two atomic statements of the maketrade mutation (append
    to trades, then assign last_trade) can interleave with a concurrent
    read: the interleaving that observes between the two writes sees a
    state that is neither the pre-mutation nor the post-mutation state —
    a field-level interleaving the claim says cannot happen. -/
theorem C4_no_lock_counterexample :
    ¬ (∀ mix ∈ merges (maketradeActions sampleTrade) [AtomicOp.observe],
        ∀ obs ∈ (runActions idleState mix).2,
          obs = idleState ∨ obs = maketradeApplied sampleTrade idleState) := by
  intro h
  have hmix : [AtomicOp.writeTrades sampleTrade, AtomicOp.observe,
      AtomicOp.writeLastTrade sampleTrade] ∈
      merges (maketradeActions sampleTrade) [AtomicOp.observe] := by
    simp [merges, maketradeActions]
  have hobs : ({ idleState with
      trades := idleState.trades ++ [sampleTrade] } : BotState) ∈
      (runActions idleState [AtomicOp.writeTrades sampleTrade,
        AtomicOp.observe, AtomicOp.writeLastTrade sampleTrade]).2 := by
    simp [runActions, applyAction]
  have hc := h _ hmix _ hobs
  rcases hc with hc | hc
  · have hts : idleState.trades ++ [sampleTrade] = idleState.trades :=
      congrArg BotState.trades hc
    simp [idleState, initState] at hts
  · have hlt : (none : Option TradeRecord) = some sampleTrade :=
      congrArg BotState.last_trade hc
    simp at hlt

/-- C4 (amended): no lock exists in the code; state accesses are single
    unsynchronized field operations, so there is an interleaving of the
    maketrade mutation with a concurrent reader in which the reader
    observes the mutation half-applied: trades already extended while
    last_trade is still the old value. -/
theorem C4_field_interleaving_amended :
    ∃ mix ∈ merges (maketradeActions sampleTrade) [AtomicOp.observe],
      ∃ obs ∈ (runActions idleState mix).2,
        obs.trades = idleState.trades ++ [sampleTrade] ∧
        obs.last_trade = idleState.last_trade := by
  refine ⟨[AtomicOp.writeTrades sampleTrade, AtomicOp.observe,
    AtomicOp.writeLastTrade sampleTrade], ?_,
    { idleState with trades := idleState.trades ++ [sampleTrade] },
    ?_, rfl, rfl⟩
  · simp [merges, maketradeActions]
  · simp [runActions, applyAction]

/-- C6: every error raised during the handling of a command is caught by
    the processor, reported as exactly one error message referencing the
    state at the raise point, and the loop then continues: processing a
    concatenation of queues equals processing them in sequence, so no
    command and no fault ever stops the loop. -/
theorem C6_command_errors_contained :
    (∀ fault fe st cmd err st1 evs,
       handleCommandR fault fe st cmd = CmdOutcome.raised err st1 evs →
       processOne fault fe st cmd =
         (st1, evs ++ [Ev.send ("caught_" ++ err) st1])) ∧
    (∀ pre post st,
       processAll (pre ++ post) st =
         ((processAll post (processAll pre st).1).1,
          (processAll pre st).2 ++
            (processAll post (processAll pre st).1).2)) := by
  constructor
  · intro fault fe st cmd err st1 evs h
    simp [processOne, h]
  · intro pre post st
    induction pre generalizing st with
    | nil => simp [processAll]
    | cons it rest ih => simp [processAll, ih]

/-- C6 witness: a fault injected into the /start handler is caught and
    reported as a single error message after the saved events. -/
theorem C6_command_errors_contained_witness :
    handleCommandR (some "boom") defaultFE idleState "/start" =
      CmdOutcome.raised "boom" startedIdleState [Ev.save startedIdleState] ∧
    processOne (some "boom") defaultFE idleState "/start" =
      (startedIdleState,
       [Ev.save startedIdleState] ++
         [Ev.send ("caught_" ++ "boom") startedIdleState]) :=
  ⟨rfl,
   C6_command_errors_contained.1 (some "boom") defaultFE idleState "/start"
     "boom" startedIdleState [Ev.save startedIdleState] rfl⟩

/-- C8: the trades sequence is append-only.  Every tick of the
    ControlLoop, every command processed by the CommandProcessor, and the
    daily reset leave the prior trades as a prefix: entries are only
    appended, never removed or edited. -/
theorem C8_trades_append_only :
    (∀ env st, ∃ new, (tick env st).1.trades = st.trades ++ new) ∧
    (∀ fault fe st cmd, ∃ new,
       (processOne fault fe st cmd).1.trades = st.trades ++ new) ∧
    (∀ today st, (resetDailyStats today st).trades = st.trades) := by
  refine ⟨?_, ?_, fun today st => rfl⟩
  · intro env st
    by_cases h : st.running = false
    · exact ⟨[], by simp [tick, h]⟩
    · have htr : tick env st = tickRun env st := by simp [tick, h]
      rw [htr]
      simp only [tickRun]
      obtain ⟨new, hnew⟩ :=
        analyze_and_trade_trades env (resetCheck env.today st).1
      refine ⟨new, ?_⟩
      rw [capitalCheck_trades, dailyCheck_trades, hnew, resetCheck_trades]
  · intro fault fe st cmd
    by_cases h1 : cmd = "/start"
    · by_cases hr : st.running <;> cases fault <;>
        exact ⟨[], by simp [processOne, handleCommandR, finishCmd, h1, hr]⟩
    · by_cases h2 : cmd = "/stop"
      · by_cases hr : st.running <;> cases fault <;>
          exact ⟨[], by
            simp [processOne, handleCommandR, finishCmd, h1, h2, hr]⟩
      · by_cases h3 : cmd = "/status"
        · cases fault <;>
            exact ⟨[], by
              simp [processOne, handleCommandR, finishCmd, h1, h2, h3]⟩
        · by_cases h4 : cmd = "/maketrade"
          · obtain ⟨new, hnew⟩ := forceTradeExec_trades fe st
            cases fault <;>
              exact ⟨new, by
                simp [processOne, handleCommandR, finishCmd, h1, h2, h3, h4,
                  hnew]⟩
          · by_cases h5 : cmd = "/diagnostics"
            · cases fault <;>
                exact ⟨[], by
                  simp [processOne, handleCommandR, finishCmd, h1, h2, h3,
                    h4, h5]⟩
            · by_cases h6 : cmd = "/daily"
              · cases fault <;>
                  exact ⟨[], by
                    simp [processOne, handleCommandR, finishCmd, h1, h2, h3,
                      h4, h5, h6]⟩
              · by_cases h7 : cmd = "/weekly"
                · cases fault <;>
                    exact ⟨[], by
                      simp [processOne, handleCommandR, finishCmd, h1, h2,
                        h3, h4, h5, h6, h7]⟩
                · by_cases h8 : cmd = "/help"
                  · cases fault <;>
                      exact ⟨[], by
                        simp [processOne, handleCommandR, finishCmd, h1, h2,
                          h3, h4, h5, h6, h7, h8]⟩
                  · cases fault <;>
                      exact ⟨[], by
                        simp [processOne, handleCommandR, finishCmd, h1, h2,
                          h3, h4, h5, h6, h7, h8]⟩

/-- C10: processing /start on a stopped bot sets only the running flag,
    then saves and sends the strategy summary referencing the new state;
    recovery_mode, the P&L counters, capital, trades, last_trade and
    last_reset are untouched — in particular recovery_mode survives a
    restart after a daily breach, and only the daily reset clears it. -/
theorem C10_start_frame (fe : ForceEnv) (st : BotState)
    (h : st.running = false) :
    (processOne none fe st "/start").1 = { st with running := true } ∧
    (processOne none fe st "/start").1.recovery_mode = st.recovery_mode ∧
    (processOne none fe st "/start").1.trades = st.trades ∧
    (processOne none fe st "/start").2 =
      [Ev.save { st with running := true },
       Ev.send "started" { st with running := true }] ∧
    (∀ today s2, (resetDailyStats today s2).recovery_mode = false) := by
  refine ⟨?_, ?_, ?_, ?_, fun today s2 => rfl⟩ <;>
    simp [processOne, handleCommandR, finishCmd, h]

/-- C10 witness: starting from a stopped state in recovery mode, /start
    flips only running and leaves the recovery flag set. -/
theorem C10_start_frame_witness :
    (processOne none defaultFE recoveryStoppedState "/start").1 =
      { recoveryStoppedState with running := true } ∧
    (processOne none defaultFE recoveryStoppedState "/start").1.recovery_mode
      = true :=
  ⟨(C10_start_frame defaultFE recoveryStoppedState rfl).1,
   (C10_start_frame defaultFE recoveryStoppedState rfl).2.1⟩
